import Mathlib

/-!
A shallow embedding of the AEM chatbot backend's compliance-scoring and
intent-detection logic, together with theorems settling the specification
claims about it.

Sources embedded:
  * src/models/compliance_rules.py  (rule taxonomy, scoring)
  * src/services/compliance_service.py  (page evaluation, batching, summary)
  * src/services/intent_service.py  (intent classification, mode switching)
  * src/config.py  (default thresholds)

Python floats are modelled as exact rationals; `round(x, 2)` is modelled as
round-half-to-even at two decimals, matching Python's rounding mode.
External effects (the AEM page-content HTTP call and the Ollama analyzer)
are modelled as explicit function parameters.
-/

namespace AemBot

/-! ## String utilities mirroring the Python primitives used -/

/-- Bool test: the first list is an initial segment of the second. -/
def charsStartWith : List Char → List Char → Bool
  | [], _ => true
  | _ :: _, [] => false
  | a :: as, b :: bs => a == b && charsStartWith as bs

/-- Bool test: the first list occurs as a contiguous segment of the second. -/
def charsContain (sub : List Char) : List Char → Bool
  | [] => sub.isEmpty
  | b :: bs => charsStartWith sub (b :: bs) || charsContain sub bs

/-- Python `sub in s` substring containment. -/
def strHasSub (s sub : String) : Bool := charsContain sub.data s.data

/-- Drop everything up to and including the first occurrence of `sub`;
`none` when `sub` does not occur. -/
def charsDropAfter (sub : List Char) : List Char → Option (List Char)
  | [] => if sub.isEmpty then some [] else none
  | b :: bs =>
    if charsStartWith sub (b :: bs) then some ((b :: bs).drop sub.length)
    else charsDropAfter sub bs

/-- Match a sequence of literal segments in order, each strictly after the
previous one (the semantics of `seg1.*seg2.*…` under `re.search`). -/
def segsMatch : List (List Char) → List Char → Bool
  | [], _ => true
  | seg :: rest, t =>
    match charsDropAfter seg t with
    | some t2 => segsMatch rest t2
    | none => false

/-- Split a pattern at each literal `.*` into its literal segments. -/
def dotStarSegs : List Char → List Char → List (List Char)
  | [], acc => [acc.reverse]
  | '.' :: '*' :: rest, acc => acc.reverse :: dotStarSegs rest []
  | c :: rest, acc => dotStarSegs rest (c :: acc)

/-- Python `re.search(pattern, text)` for the intent-phrase patterns, which
are literal strings interspersed with `.*`. -/
def reSearchDotStar (pattern text : String) : Bool :=
  segsMatch (dotStarSegs pattern.data []) text.data

/-- Python `str.lower()` (ASCII inputs). -/
def pyLower (s : String) : String := String.mk (s.data.map Char.toLower)

/-- Python `str.strip()`. -/
def pyStrip (s : String) : String :=
  String.mk (((s.data.dropWhile Char.isWhitespace).reverse.dropWhile Char.isWhitespace).reverse)

/-! ## Rational arithmetic helpers mirroring Python builtins -/

/-- Python `min` on two numbers. -/
def pyMin (a b : ℚ) : ℚ := if a ≤ b then a else b

/-- Python `max` on two numbers. -/
def pyMax (a b : ℚ) : ℚ := if b ≤ a then a else b

/-- Python `round()` to an integer: round half to even.
`Rat.floor` is the mathematical floor (see `ratFloor_eq_intFloor`). -/
def roundHalfEven (q : ℚ) : ℤ :=
  let f : ℤ := q.floor
  if q - f < 1/2 then f
  else if (1 : ℚ)/2 < q - f then f + 1
  else if f % 2 = 0 then f else f + 1

/-- Python `round(x, 2)`. -/
def round2 (q : ℚ) : ℚ := (roundHalfEven (q * 100) : ℚ) / 100

/-! ## Enumerations from src/models/schemas.py -/

/-- `Intent` enum. -/
inductive Intent where
  | CHAT
  | FILE_UPLOAD
  | WEB_SEARCH
  | AEM_QUERY
  | AEM_COMPLIANCE
  | UNKNOWN
  deriving DecidableEq, Repr, BEq

/-- `ChatMode` enum. -/
inductive ChatMode where
  | CHAT
  | FILE
  | WEB
  | AEM
  deriving DecidableEq, Repr, BEq

/-! ## Intent service (src/services/intent_service.py) -/

/-- One entry of `IntentService.patterns`; intents without an
`aem_keywords` key get `[]`, matching `patterns.get('aem_keywords', [])`. -/
structure IntentPatterns where
  keywords : List String
  phrases : List String
  aem_keywords : List String
  deriving Repr

def compliancePatterns : IntentPatterns :=
  { keywords := ["compliance", "check", "audit", "validate", "accessibility",
      "seo", "performance", "security", "analyze page", "scan",
      "wcag", "a11y", "best practices", "standards"],
    phrases := ["check.*compliance", "run.*audit", "analyze.*page",
      "compliance.*check", "audit.*page", "scan.*page",
      "validate.*page", "check.*accessibility", "seo.*audit"],
    aem_keywords := ["aem", "content", "page", "component", "template"] }

def queryPatterns : IntentPatterns :=
  { keywords := ["find", "list", "show", "get", "search", "query",
      "pages under", "content under", "browse", "display"],
    phrases := ["find.*pages", "list.*pages", "show.*pages",
      "get.*pages", "pages under", "content under",
      "search.*content", "browse.*content"],
    aem_keywords := ["aem", "content", "page", "site", "/content"] }

def filePatterns : IntentPatterns :=
  { keywords := ["upload", "file", "document", "pdf", "analyze document",
      "read file", "parse", "extract", "document analysis"],
    phrases := ["analyze.*document", "read.*file", "upload.*file",
      "parse.*document", "extract.*from", "review.*document"],
    aem_keywords := [] }

def webPatterns : IntentPatterns :=
  { keywords := ["search web", "google", "find online", "look up",
      "search for", "web search", "internet", "online"],
    phrases := ["search.*web", "search.*online", "find.*online",
      "look.*up", "search.*internet", "google.*for"],
    aem_keywords := [] }

/-- `self.patterns` in insertion order. -/
def intentPatternList : List (Intent × IntentPatterns) :=
  [(.AEM_COMPLIANCE, compliancePatterns),
   (.AEM_QUERY, queryPatterns),
   (.FILE_UPLOAD, filePatterns),
   (.WEB_SEARCH, webPatterns)]

/-- `Config.INTENT_CONFIDENCE_THRESHOLD` default (src/config.py line 51). -/
def INTENT_CONFIDENCE_THRESHOLD : ℚ := 0.6

/-- `IntentService._calculate_intent_score`. -/
def calculate_intent_score (text : String) (patterns : IntentPatterns) : ℚ :=
  let keywordContribution : ℚ :=
    if patterns.keywords.isEmpty then 0
    else
      let keyword_matches : ℕ := patterns.keywords.countP (fun kw => strHasSub text kw)
      let keyword_score :=
        pyMin ((keyword_matches : ℚ) / pyMax ((patterns.keywords.length : ℚ) * 0.3) 1) 1
      keyword_score * 0.3
  let phraseContribution : ℚ :=
    if patterns.phrases.isEmpty then 0
    else
      let phrase_matches : ℕ := patterns.phrases.countP (fun phrase => reSearchDotStar phrase text)
      let phrase_score :=
        pyMin ((phrase_matches : ℚ) / pyMax ((patterns.phrases.length : ℚ) * 0.5) 1) 1
      phrase_score * 0.4
  let aemContribution : ℚ :=
    if patterns.aem_keywords.isEmpty then 0
    else
      let aem_matches : ℕ := patterns.aem_keywords.countP (fun kw => strHasSub text kw)
      let aem_score :=
        pyMin ((aem_matches : ℚ) / pyMax ((patterns.aem_keywords.length : ℚ) * 0.5) 1) 1
      aem_score * 0.3
  pyMin (keywordContribution + phraseContribution + aemContribution) 1

/-- `IntentService._intent_to_mode` (a total dict lookup defaulting to CHAT). -/
def intent_to_mode : Intent → ChatMode
  | .CHAT => .CHAT
  | .FILE_UPLOAD => .FILE
  | .WEB_SEARCH => .WEB
  | .AEM_QUERY => .AEM
  | .AEM_COMPLIANCE => .AEM
  | .UNKNOWN => .CHAT

/-- The `extracted_entities` dictionary; absent keys are `none`. -/
structure Entities where
  path : Option String := none
  categories : Option (List String) := none
  query : Option String := none
  question : Option String := none
  deriving DecidableEq, Repr

/-- `\w` character for ASCII inputs. -/
def isWordChar (c : Char) : Bool := c.isAlphanum || c == '_'

/-- Character class `[/\w-]` of the AEM-path regex. -/
def isPathClassChar (c : Char) : Bool := c == '/' || isWordChar c || c == '-'

/-- Leftmost match of `re.search(r'/content[/\w-]*', text)`. -/
def contentMatchFrom : List Char → Option (List Char)
  | [] => none
  | b :: bs =>
    if charsStartWith "/content".data (b :: bs) then
      some ("/content".data ++ (((b :: bs).drop "/content".data.length).takeWhile isPathClassChar))
    else contentMatchFrom bs

/-- Case-insensitive initial-segment test. -/
def charsStartWithCI (p l : List Char) : Bool :=
  charsStartWith (p.map Char.toLower) (l.map Char.toLower)

/-- One step of the web-query cleanup:
`re.sub(f'^{p}\\s+', '', q, flags=re.IGNORECASE)`. -/
def stripLeadCI (p : String) (q : String) : String :=
  if charsStartWithCI p.data q.data then
    match q.data.drop p.data.length with
    | [] => q
    | c :: rest =>
      if c.isWhitespace then String.mk (rest.dropWhile Char.isWhitespace) else q
  else q

def questionWords : List String := ["what", "how", "explain", "summarize", "analyze"]

/-- Leftmost match of
`re.search(r'(what|how|explain|summarize|analyze).*', text, re.IGNORECASE)`;
`.*` runs greedily to the end of the line. -/
def questionMatchFrom : List Char → Option (List Char)
  | [] => none
  | b :: bs =>
    if questionWords.any (fun w => charsStartWithCI w.data (b :: bs)) then
      some ((b :: bs).takeWhile (fun c => c != '\n'))
    else questionMatchFrom bs

/-- `IntentService._extract_entities`. -/
def extract_entities (text : String) (intent : Intent) : Entities :=
  if intent == .AEM_QUERY || intent == .AEM_COMPLIANCE then
    let e0 : Entities := {}
    let e1 : Entities :=
      match contentMatchFrom text.data with
      | some m => { e0 with path := some (String.mk m) }
      | none => e0
    if intent == .AEM_COMPLIANCE then
      if strHasSub (pyLower text) "accessibility" || strHasSub (pyLower text) "a11y" then
        { e1 with categories := some ["accessibility"] }
      else if strHasSub (pyLower text) "seo" then
        { e1 with categories := some ["seo"] }
      else if strHasSub (pyLower text) "performance" then
        { e1 with categories := some ["performance"] }
      else if strHasSub (pyLower text) "security" then
        { e1 with categories := some ["security"] }
      else e1
    else e1
  else if intent == .WEB_SEARCH then
    let query :=
      ["search for", "search", "find", "look up", "google"].foldl
        (fun q p => stripLeadCI p q) text
    { query := some (pyStrip query) }
  else if intent == .FILE_UPLOAD then
    match questionMatchFrom text.data with
    | some m => { question := some (String.mk m) }
    | none => {}
  else {}

/-- The dictionary returned by `IntentService.detect_intent`. -/
structure IntentDetection where
  intent : Intent
  confidence : ℚ
  suggested_mode : ChatMode
  extracted_entities : Entities
  deriving DecidableEq, Repr

/-- The fallback branch of `detect_intent`: default chat intent at fixed
confidence 0.5 with no entities. -/
def fallbackDetection : IntentDetection :=
  { intent := .CHAT, confidence := 0.5, suggested_mode := .CHAT,
    extracted_entities := {} }

/-- Python `max(scores, key=scores.get)`: the first maximal entry. -/
def maxByScore : List (Intent × ℚ) → Option (Intent × ℚ)
  | [] => none
  | x :: xs => some (xs.foldl (fun best p => if best.2 < p.2 then p else best) x)

/-- `IntentService.detect_intent`. -/
def detect_intent (text : String) : IntentDetection :=
  let text_lower := pyStrip (pyLower text)
  let scores := intentPatternList.map (fun p => (p.1, calculate_intent_score text_lower p.2))
  match maxByScore scores with
  | some mp =>
    if INTENT_CONFIDENCE_THRESHOLD ≤ mp.2 then
      { intent := mp.1, confidence := mp.2,
        suggested_mode := intent_to_mode mp.1,
        extracted_entities := extract_entities text mp.1 }
    else fallbackDetection
  | none => fallbackDetection

/-- `IntentService.should_switch_mode`. -/
def should_switch_mode (current_mode : ChatMode) (detected_intent : Intent)
    (confidence : ℚ) : Bool :=
  if confidence < 0.7 then false
  else if current_mode == intent_to_mode detected_intent then false
  else if detected_intent == .AEM_QUERY || detected_intent == .AEM_COMPLIANCE then true
  else if detected_intent == .FILE_UPLOAD || detected_intent == .WEB_SEARCH then true
  else false

/-! ## Rule taxonomy (src/models/compliance_rules.py) -/

/-- One check definition inside a category of `ComplianceRules.RULES`. -/
structure CheckDef where
  id : String
  name : String
  description : String
  severity : String
  weight : ℚ
  prompt : String
  deriving DecidableEq, Repr

/-- One category of `ComplianceRules.RULES`. -/
structure CategoryDef where
  name : String
  weight : ℚ
  checks : List CheckDef
  deriving DecidableEq, Repr

/-- `ComplianceRules.RULES`, in insertion order. -/
def RULES : List (String × CategoryDef) :=
  [("accessibility",
    { name := "Accessibility Compliance", weight := 0.25, checks :=
      [{ id := "alt_text", name := "Image Alt Text",
         description := "All images must have descriptive alt text",
         severity := "high", weight := 0.3,
         prompt := "Check if all images in this HTML have alt text attributes. List any images missing alt text." },
       { id := "heading_hierarchy", name := "Heading Hierarchy",
         description := "Headings must follow proper hierarchy (h1, h2, h3, etc.)",
         severity := "high", weight := 0.25,
         prompt := "Analyze the heading structure. Are headings in proper hierarchy? List any issues." },
       { id := "aria_labels", name := "ARIA Labels",
         description := "Interactive elements should have ARIA labels",
         severity := "medium", weight := 0.2,
         prompt := "Check if buttons, links, and interactive elements have appropriate ARIA labels." },
       { id := "color_contrast", name := "Color Contrast",
         description := "Text should have sufficient color contrast",
         severity := "medium", weight := 0.15,
         prompt := "Review inline styles and classes for potential color contrast issues." },
       { id := "keyboard_navigation", name := "Keyboard Navigation",
         description := "All interactive elements should be keyboard accessible",
         severity := "high", weight := 0.1,
         prompt := "Check if interactive elements have tabindex or are naturally keyboard accessible." }] }),
   ("seo",
    { name := "SEO Best Practices", weight := 0.2, checks :=
      [{ id := "title_tag", name := "Title Tag",
         description := "Page must have a unique, descriptive title tag",
         severity := "high", weight := 0.3,
         prompt := "Does this page have a title tag? Is it descriptive and under 60 characters?" },
       { id := "meta_description", name := "Meta Description",
         description := "Page should have a meta description",
         severity := "high", weight := 0.25,
         prompt := "Check for meta description tag. Is it present and under 160 characters?" },
       { id := "h1_tag", name := "H1 Tag",
         description := "Page should have exactly one H1 tag",
         severity := "medium", weight := 0.2,
         prompt := "How many H1 tags are on this page? There should be exactly one." },
       { id := "canonical_url", name := "Canonical URL",
         description := "Page should have a canonical URL",
         severity := "low", weight := 0.15,
         prompt := "Is there a canonical link tag present?" },
       { id := "image_optimization", name := "Image Optimization",
         description := "Images should have appropriate format and size",
         severity := "medium", weight := 0.1,
         prompt := "Review image tags for lazy loading attributes and appropriate formats." }] }),
   ("performance",
    { name := "Performance Optimization", weight := 0.2, checks :=
      [{ id := "script_async", name := "Async Scripts",
         description := "Scripts should be loaded asynchronously when possible",
         severity := "medium", weight := 0.3,
         prompt := "Check script tags. Are they using async or defer attributes?" },
       { id := "css_inline", name := "Inline CSS",
         description := "Critical CSS should be inline, non-critical external",
         severity := "low", weight := 0.2,
         prompt := "Analyze CSS loading. Is there excessive inline CSS?" },
       { id := "lazy_loading", name := "Lazy Loading",
         description := "Images below fold should use lazy loading",
         severity := "medium", weight := 0.25,
         prompt := "Are images using loading=\"lazy\" attribute?" },
       { id := "resource_hints", name := "Resource Hints",
         description := "Use preload, prefetch for critical resources",
         severity := "low", weight := 0.15,
         prompt := "Check for link rel=\"preload\" or rel=\"prefetch\" tags." },
       { id := "compression", name := "Resource Compression",
         description := "Resources should be compressed",
         severity := "medium", weight := 0.1,
         prompt := "Review if inline scripts/styles appear minified." }] }),
   ("security",
    { name := "Security Headers", weight := 0.15, checks :=
      [{ id := "csp", name := "Content Security Policy",
         description := "Page should have CSP meta tag",
         severity := "high", weight := 0.3,
         prompt := "Is there a Content-Security-Policy meta tag?" },
       { id := "external_links", name := "External Links Security",
         description := "External links should have rel=\"noopener noreferrer\"",
         severity := "medium", weight := 0.25,
         prompt := "Check external links for rel=\"noopener noreferrer\" attributes." },
       { id := "form_validation", name := "Form Validation",
         description := "Forms should have proper validation",
         severity := "high", weight := 0.2,
         prompt := "Review forms for validation attributes and security measures." },
       { id := "https_resources", name := "HTTPS Resources",
         description := "All resources should load over HTTPS",
         severity := "high", weight := 0.15,
         prompt := "Check if all src/href attributes use HTTPS URLs." },
       { id := "input_sanitization", name := "Input Sanitization",
         description := "User inputs should be sanitized",
         severity := "high", weight := 0.1,
         prompt := "Review if there are any potential XSS vulnerabilities in the code." }] }),
   ("content_quality",
    { name := "Content Quality", weight := 0.1, checks :=
      [{ id := "broken_links", name := "Broken Links",
         description := "No broken or empty links",
         severity := "medium", weight := 0.3,
         prompt := "Identify any links with empty href or href=\"#\"." },
       { id := "duplicate_content", name := "Duplicate Content",
         description := "Avoid duplicate text blocks",
         severity := "low", weight := 0.2,
         prompt := "Check for repeated paragraphs or content blocks." },
       { id := "readability", name := "Content Readability",
         description := "Content should be clear and well-structured",
         severity := "low", weight := 0.25,
         prompt := "Assess paragraph length and sentence structure for readability." },
       { id := "language_tag", name := "Language Tag",
         description := "HTML should have lang attribute",
         severity := "medium", weight := 0.15,
         prompt := "Does the HTML tag have a lang attribute?" },
       { id := "content_structure", name := "Content Structure",
         description := "Content should use semantic HTML",
         severity := "low", weight := 0.1,
         prompt := "Review use of semantic tags like article, section, nav, aside." }] }),
   ("aem_specific",
    { name := "AEM Best Practices", weight := 0.1, checks :=
      [{ id := "component_structure", name := "Component Structure",
         description := "AEM components should follow best practices",
         severity := "medium", weight := 0.3,
         prompt := "Review data-cq-* attributes and component structure." },
       { id := "clientlibs", name := "Client Libraries",
         description := "Proper use of AEM clientlibs",
         severity := "low", weight := 0.25,
         prompt := "Check for proper clientlib categories and dependencies." },
       { id := "edit_mode", name := "Edit Mode Config",
         description := "Components should have edit configurations",
         severity := "low", weight := 0.2,
         prompt := "Look for cq:editConfig or related AEM authoring configurations." },
       { id := "responsive_grid", name := "Responsive Grid",
         description := "Use AEM responsive grid system",
         severity := "low", weight := 0.15,
         prompt := "Check for responsive grid classes and breakpoints." },
       { id := "sling_models", name := "Sling Models",
         description := "Efficient use of Sling models",
         severity := "low", weight := 0.1,
         prompt := "Review data-sly-use for efficient model usage." }] })]

/-- `cls.RULES.get(category)` — dictionary lookup in the taxonomy. -/
def lookupRule (category : String) : Option CategoryDef :=
  (RULES.find? (fun p => p.1 == category)).map (fun p => p.2)

/-- `cls.RULES.get(category, {}).get('weight', 0)`. -/
def weightOfCategory (category : String) : ℚ :=
  match lookupRule category with
  | some c => c.weight
  | none => 0

/-- Sum of the `weight` fields of a list of checks
(`sum(check['weight'] for check in checks)`). -/
def totalCheckWeight (checks : List CheckDef) : ℚ :=
  (checks.map (fun c => c.weight)).sum

/-- Sum of the weights of the checks whose id passed in `results`. -/
def passedCheckWeight (checks : List CheckDef) (results : String → Bool) : ℚ :=
  ((checks.filter (fun c => results c.id)).map (fun c => c.weight)).sum

/-- `ComplianceRules.calculate_category_score`; `results` is the per-check
verdict lookup `results.get(check['id'], {}).get('passed', False)`. -/
def calculate_category_score (results : String → Bool) (category : String) : ℚ :=
  match lookupRule category with
  | none => 0
  | some category_data =>
    let checks := category_data.checks
    let total_weight := totalCheckWeight checks
    let weighted_score :=
      checks.foldl (fun acc check => if results check.id then acc + check.weight else acc) 0
    if 0 < total_weight then (weighted_score / total_weight) * 100 else 0

/-- `ComplianceRules.calculate_overall_score`: a direct weighted sum over the
entries of `category_scores`, rounded to 2 decimals. -/
def calculate_overall_score (category_scores : List (String × ℚ)) : ℚ :=
  let total_weighted_score :=
    category_scores.foldl (fun acc p => acc + p.2 * weightOfCategory p.1) 0
  round2 total_weighted_score

/-! ## Result schemas (src/models/schemas.py)

`checked_at` (a wall-clock timestamp) is omitted from the embedding. -/

/-- `CheckResult`. -/
structure CheckResult where
  id : String
  name : String
  passed : Bool
  score : ℚ
  issues : List String
  recommendations : List String
  severity : String
  deriving DecidableEq, Repr

/-- `CategoryResult`. -/
structure CategoryResult where
  category : String
  name : String
  score : ℚ
  checks : List CheckResult
  total_checks : ℕ
  passed_checks : ℕ
  deriving DecidableEq, Repr

/-- `ComplianceResult`. -/
structure ComplianceResult where
  page_path : String
  page_title : String
  overall_score : ℚ
  grade : String
  categories : List CategoryResult
  total_issues : ℕ
  high_priority_issues : ℕ
  medium_priority_issues : ℕ
  low_priority_issues : ℕ
  deriving DecidableEq, Repr

/-! ## Compliance service (src/services/compliance_service.py) -/

/-- The dictionary returned by `OllamaService.analyze_html`, restricted to
the keys the compliance service reads. -/
structure AnalysisResult where
  passed : Bool
  issues : List String
  recommendations : List String

/-- The dictionary returned by `AEMService.get_page_content`, restricted to
the keys the compliance service reads; `html` and `title` are optional to
model `.get('html', '')` and `.get('title', page_path)` defaults. -/
structure ContentResult where
  success : Bool
  error : String
  html : Option String
  title : Option String

/-- The service's external dependencies: the AEM page-content provider and
the Ollama analyzer (html, check prompt, model ↦ analysis). -/
structure Env where
  get_page_content : String → ContentResult
  analyze_html : String → String → String → AnalysisResult

/-- `ComplianceService._run_single_check`. -/
def run_single_check (env : Env) (check : CheckDef) (html_content : String)
    (model : String) : CheckResult :=
  let analysis := env.analyze_html html_content check.prompt model
  { id := check.id
    name := check.name
    passed := analysis.passed
    score := if analysis.passed then 100 else 0
    issues := analysis.issues
    recommendations := analysis.recommendations
    severity := check.severity }

/-- `ComplianceService._check_category`. -/
def check_category (env : Env) (category_name : String) (category_data : CategoryDef)
    (html_content : String) (model : String) : CategoryResult :=
  let checks := category_data.checks
  let check_results := checks.map (fun check => run_single_check env check html_content model)
  let passed_checks := check_results.countP (fun c => c.passed)
  let total_checks := check_results.length
  let total_weight := totalCheckWeight checks
  let weighted_score :=
    (((checks.zip check_results).filter (fun pr => pr.2.passed)).map
      (fun pr => pr.1.weight)).sum
  let category_score : ℚ := if 0 < total_weight then weighted_score / total_weight * 100 else 0
  { category := category_name
    name := category_data.name
    score := round2 category_score
    checks := check_results
    total_checks := total_checks
    passed_checks := passed_checks }

/-- `ComplianceService._calculate_grade`. -/
def calculate_grade (score : ℚ) : String :=
  if 90 ≤ score then "A"
  else if 80 ≤ score then "B"
  else if 70 ≤ score then "C"
  else if 60 ≤ score then "D"
  else "F"

/-- `ComplianceService._create_error_result`; like the source, the error
message argument is not recorded in the result. -/
def create_error_result (page_path : String) (error_msg : String) : ComplianceResult :=
  { page_path := page_path
    page_title := "Error: " ++ page_path
    overall_score := 0
    grade := "F"
    categories := []
    total_issues := 1
    high_priority_issues := 1
    medium_priority_issues := 0
    low_priority_issues := 0 }

/-- Accumulator of the severity-counting loop of `check_page_compliance`. -/
structure IssueCounts where
  total : ℕ
  high : ℕ
  medium : ℕ
  low : ℕ
  deriving DecidableEq, Repr

/-- One iteration of the severity-counting loop: a failed check increments
`total` and exactly one severity bucket (high / medium / everything else). -/
def tallyCheck (acc : IssueCounts) (check : CheckResult) : IssueCounts :=
  if check.passed then acc
  else if check.severity == "high" then
    { acc with total := acc.total + 1, high := acc.high + 1 }
  else if check.severity == "medium" then
    { acc with total := acc.total + 1, medium := acc.medium + 1 }
  else
    { acc with total := acc.total + 1, low := acc.low + 1 }

/-- The issue-counting double loop of `check_page_compliance`. -/
def countIssues (category_results : List CategoryResult) : IssueCounts :=
  category_results.foldl (fun acc cat => cat.checks.foldl tallyCheck acc)
    { total := 0, high := 0, medium := 0, low := 0 }

/-- The working rule set of `check_page_compliance`:
`if categories:` is Python truthiness, so both `None` and the empty list
select the whole taxonomy; a non-empty list filters it. -/
def rulesToCheck (categories : Option (List String)) : List (String × CategoryDef) :=
  match categories with
  | some cats => if cats.isEmpty then RULES else RULES.filter (fun p => cats.contains p.1)
  | none => RULES

/-- `ComplianceService.check_page_compliance`. -/
def check_page_compliance (env : Env) (page_path : String)
    (categories : Option (List String)) (model : String) : ComplianceResult :=
  let content_result := env.get_page_content page_path
  if !content_result.success then
    create_error_result page_path ("Failed to retrieve page: " ++ content_result.error)
  else
    let html_content := content_result.html.getD ""
    let page_title := content_result.title.getD page_path
    let category_results :=
      (rulesToCheck categories).map
        (fun p => check_category env p.1 p.2 html_content model)
    let category_scores := category_results.map (fun cat => (cat.category, cat.score))
    let overall_score := calculate_overall_score category_scores
    let counts := countIssues category_results
    { page_path := page_path
      page_title := page_title
      overall_score := overall_score
      grade := calculate_grade overall_score
      categories := category_results
      total_issues := counts.total
      high_priority_issues := counts.high
      medium_priority_issues := counts.medium
      low_priority_issues := counts.low }

/-- The per-future collection step of `check_multiple_pages`: `future.result()`
either yields the page's result or re-raises the task's exception, which the
orchestrator converts into an error result tagged with the page's path.
`evalPage` models the submitted task (`Except.error` = uncaught exception). -/
def collect_result (evalPage : String → Except String ComplianceResult)
    (path : String) : ComplianceResult :=
  match evalPage path with
  | .ok r => r
  | .error e => create_error_result path ("Check failed: " ++ e)

/-- `ComplianceService.check_multiple_pages`: one task per path, submitted and
collected in input order (the `futures` dict preserves insertion order). -/
def check_multiple_pages (evalPage : String → Except String ComplianceResult)
    (page_paths : List String) : List ComplianceResult :=
  page_paths.map (collect_result evalPage)

/-! ## Summary statistics (src/services/compliance_service.py) -/

/-- A value of the summary dictionary: a number or the nested
grade-distribution dictionary. -/
inductive SVal where
  | num : ℚ → SVal
  | dist : List (String × ℕ) → SVal
  deriving DecidableEq, Repr

/-- `grade_dist[grade] = grade_dist.get(grade, 0) + 1`: update in place when
the key exists, append otherwise (Python dicts keep insertion order). -/
def incrGrade : List (String × ℕ) → String → List (String × ℕ)
  | [], g => [(g, 1)]
  | (k, v) :: rest, g =>
    if k = g then (k, v + 1) :: rest else (k, v) :: incrGrade rest g

/-- Lookup in the grade-distribution dictionary, defaulting to 0. -/
def lookupNat : List (String × ℕ) → String → ℕ
  | [], _ => 0
  | (k, v) :: rest, g => if k = g then v else lookupNat rest g

/-- Lookup in the summary dictionary. -/
def svLookup : List (String × SVal) → String → Option SVal
  | [], _ => none
  | (k, v) :: rest, key => if k = key then some v else svLookup rest key

/-- `ComplianceService.get_summary_statistics`, returned as the key/value
list of the Python dictionary in insertion order. -/
def get_summary_statistics (results : List ComplianceResult) : List (String × SVal) :=
  if results.isEmpty then
    [("total_pages", .num 0),
     ("average_score", .num 0),
     ("grade_distribution", .dist []),
     ("total_issues", .num 0)]
  else
    let total_pages := results.length
    let total_score := (results.map (fun r => r.overall_score)).sum
    let average_score : ℚ := if 0 < total_pages then total_score / (total_pages : ℚ) else 0
    let grade_dist := results.foldl (fun d r => incrGrade d r.grade) []
    let total_issues := (results.map (fun r => r.total_issues)).sum
    let total_high := (results.map (fun r => r.high_priority_issues)).sum
    let total_medium := (results.map (fun r => r.medium_priority_issues)).sum
    let total_low := (results.map (fun r => r.low_priority_issues)).sum
    [("total_pages", .num total_pages),
     ("average_score", .num (round2 average_score)),
     ("grade_distribution", .dist grade_dist),
     ("total_issues", .num total_issues),
     ("high_priority_issues", .num total_high),
     ("medium_priority_issues", .num total_medium),
     ("low_priority_issues", .num total_low),
     ("pages_passed", .num (results.countP (fun r => decide (70 ≤ r.overall_score)))),
     ("pages_failed", .num (results.countP (fun r => decide (r.overall_score < 70))))]

/-! ## Concrete environments used by witnesses and counterexamples -/

/-- An environment where page retrieval succeeds and every check passes. -/
def allPassEnv : Env :=
  { get_page_content := fun _ =>
      { success := true, error := "", html := some "<html></html>", title := some "Home" }
    analyze_html := fun _ _ _ => { passed := true, issues := [], recommendations := [] } }

/-- An environment where page retrieval succeeds and every check fails. -/
def allFailEnv : Env :=
  { get_page_content := fun _ =>
      { success := true, error := "", html := some "<html></html>", title := some "Home" }
    analyze_html := fun _ _ _ =>
      { passed := false, issues := ["issue"], recommendations := ["fix"] } }

/-- An environment where the Page-Content Provider reports failure. -/
def fetchFailEnv : Env :=
  { get_page_content := fun _ =>
      { success := false, error := "timeout", html := none, title := none }
    analyze_html := fun _ _ _ => { passed := true, issues := [], recommendations := [] } }

/-- The example text of the intent-classification spec. -/
def c5Text : String := "check accessibility compliance for /content/site"

/-- Five page identifiers for the batch-isolation example. -/
def fivePaths : List String :=
  ["/content/p1", "/content/p2", "/content/p3", "/content/p4", "/content/p5"]

/-- A batch task in which the Page-Content Provider call for "/content/p3"
raises (times out) and every other page evaluates fully with all checks
passing. -/
def eval5 : String → Except String ComplianceResult :=
  fun path =>
    if path = "/content/p3" then .error "Page-Content Provider timeout"
    else .ok (check_page_compliance allPassEnv path none "gemma:2b")

/-- A batch task over the all-fail environment whose "/content/p3" task
raises. -/
def evalFail5 : String → Except String ComplianceResult :=
  fun path =>
    if path = "/content/p3" then .error "boom"
    else .ok (check_page_compliance allFailEnv path none "gemma:2b")

/-- The grade-distribution count read off a summary dictionary. -/
def gradeCount (d : List (String × SVal)) (g : String) : ℕ :=
  match svLookup d "grade_distribution" with
  | some (.dist dd) => lookupNat dd g
  | _ => 0

/-! ## Lemmas and claim theorems

The library's rational arithmetic is `@[irreducible]`; restoring the default
reducibility lets `decide` evaluate the embedded functions on concrete
inputs (the kernel certificate is unaffected by reducibility attributes). -/

attribute [local semireducible] Rat.mul Rat.add Rat.sub Rat.inv Rat.ofScientific

/-- `Rat.floor` agrees with the mathematical floor. -/
theorem ratFloor_eq_intFloor (q : ℚ) : q.floor = ⌊q⌋ :=
  (Rat.floor_def' q).trans Rat.floor_def.symm

/-- Folding the weighted-sum step of `calculate_overall_score` from `c`
adds the weighted sum to `c`. -/
theorem foldl_add_weighted (m : List (String × ℚ)) (c : ℚ) :
    m.foldl (fun acc p => acc + p.2 * weightOfCategory p.1) c
      = c + (m.map (fun p => p.2 * weightOfCategory p.1)).sum := by
  induction m generalizing c with
  | nil => simp
  | cons a t ih => simp [ih, add_assoc]

/-- C1: `calculate_overall_score` is the direct weighted sum of the given
category scores rounded to two decimals, the weight of each key looked up in
the taxonomy with no renormalization by the total weight present; a key not
in the taxonomy contributes 0; restricting an all-pass evaluation to the
accessibility category (weight 0.25) yields overall score 25, not 100. -/
theorem C1_overall_score_weighted_sum :
    (∀ m : List (String × ℚ),
      calculate_overall_score m
        = round2 ((m.map (fun p => p.2 * weightOfCategory p.1)).sum))
    ∧ (∀ (k : String) (s : ℚ), lookupRule k = none → calculate_overall_score [(k, s)] = 0)
    ∧ (check_page_compliance allPassEnv "/content/home" (some ["accessibility"])
          "gemma:2b").overall_score = 25
    ∧ (25 : ℚ) ≠ 100 := by
  refine ⟨?_, ?_, by decide, by decide⟩
  · intro m
    unfold calculate_overall_score
    rw [foldl_add_weighted, zero_add]
  · intro k s h
    unfold calculate_overall_score
    rw [foldl_add_weighted, zero_add]
    simp only [List.map_cons, List.map_nil, List.sum_cons, List.sum_nil, weightOfCategory, h,
      mul_zero, add_zero]
    decide

/-- Witness for C1: the unknown category key "bogus" contributes zero. -/
theorem C1_overall_score_weighted_sum_witness :
    calculate_overall_score [("bogus", (42 : ℚ))] = 0 :=
  C1_overall_score_weighted_sum.2.1 "bogus" 42 rfl

/-- C3: when the Page-Content Provider reports failure, `check_page_compliance`
returns (rather than raises) the error result: overall score 0, grade F, no
categories, one issue counted as high priority, and a page title embedding
the page identifier. -/
theorem C3_provider_failure_error_result :
    ∀ (env : Env) (page_path : String) (cats : Option (List String)) (model : String),
      (env.get_page_content page_path).success = false →
      check_page_compliance env page_path cats model
          = create_error_result page_path
              ("Failed to retrieve page: " ++ (env.get_page_content page_path).error)
        ∧ (check_page_compliance env page_path cats model).overall_score = 0
        ∧ (check_page_compliance env page_path cats model).grade = "F"
        ∧ (check_page_compliance env page_path cats model).categories = []
        ∧ (check_page_compliance env page_path cats model).total_issues = 1
        ∧ (check_page_compliance env page_path cats model).high_priority_issues = 1
        ∧ ∃ pre : String,
            (check_page_compliance env page_path cats model).page_title = pre ++ page_path := by
  intro env page_path cats model h
  have heq : check_page_compliance env page_path cats model
      = create_error_result page_path
          ("Failed to retrieve page: " ++ (env.get_page_content page_path).error) := by
    unfold check_page_compliance
    simp only [h, Bool.not_false, if_true]
  refine ⟨heq, ?_, ?_, ?_, ?_, ?_, ?_⟩ <;> rw [heq]
  · rfl
  · rfl
  · rfl
  · rfl
  · rfl
  · exact ⟨"Error: ", rfl⟩

/-- Witness for C3: a concrete failing environment. -/
theorem C3_provider_failure_error_result_witness :
    (fetchFailEnv.get_page_content "/content/missing").success = false
    ∧ (check_page_compliance fetchFailEnv "/content/missing" none "gemma:2b").grade = "F"
    ∧ (check_page_compliance fetchFailEnv "/content/missing" none "gemma:2b").total_issues = 1 :=
  ⟨rfl,
   (C3_provider_failure_error_result fetchFailEnv "/content/missing" none "gemma:2b" rfl).2.2.1,
   (C3_provider_failure_error_result fetchFailEnv "/content/missing" none "gemma:2b"
      rfl).2.2.2.2.1⟩

/-- C4 counterexample: under the default configuration the fallback
confidence (0.5) is below, not above, the detection threshold (0.6), so the
claimed ordering auto-switch > fallback > detection fails. -/
theorem C4_threshold_ordering_counterexample :
    ¬ ((0.7 : ℚ) > fallbackDetection.confidence
        ∧ fallbackDetection.confidence > INTENT_CONFIDENCE_THRESHOLD) := by
  decide

/-- C4 (amended): the fallback confidence is fixed at 0.5, strictly below
the 0.7 auto-switch threshold, so a fallback classification never triggers
an automatic mode switch; under the default configuration the ordering is
auto-switch threshold (0.7) > detection threshold (0.6) > fallback
confidence (0.5). -/
theorem C4_fallback_never_switches :
    fallbackDetection.confidence = 0.5
    ∧ (∀ (mode : ChatMode) (intent : Intent),
        should_switch_mode mode intent fallbackDetection.confidence = false)
    ∧ (0.7 : ℚ) > fallbackDetection.confidence
    ∧ INTENT_CONFIDENCE_THRESHOLD > fallbackDetection.confidence
    ∧ (0.7 : ℚ) > INTENT_CONFIDENCE_THRESHOLD := by
  refine ⟨by decide, ?_, by decide, by decide, by decide⟩
  intro mode intent
  unfold should_switch_mode
  rw [if_pos (by decide : fallbackDetection.confidence < (0.7 : ℚ))]

/-- C7: grade tiers with inclusive lower bounds, and the exact boundary
values. -/
theorem C7_grade_boundaries :
    (∀ s : ℚ,
      (90 ≤ s → calculate_grade s = "A")
      ∧ (80 ≤ s ∧ s < 90 → calculate_grade s = "B")
      ∧ (70 ≤ s ∧ s < 80 → calculate_grade s = "C")
      ∧ (60 ≤ s ∧ s < 70 → calculate_grade s = "D")
      ∧ (s < 60 → calculate_grade s = "F"))
    ∧ calculate_grade 90 = "A"
    ∧ calculate_grade 89.999 = "B"
    ∧ calculate_grade 60 = "D"
    ∧ calculate_grade 59.999 = "F" := by
  refine ⟨?_, by decide, by decide, by decide, by decide⟩
  intro s
  refine ⟨?_, ?_, ?_, ?_, ?_⟩
  · intro h
    unfold calculate_grade
    rw [if_pos h]
  · rintro ⟨h1, h2⟩
    unfold calculate_grade
    rw [if_neg (not_le.mpr h2), if_pos h1]
  · rintro ⟨h1, h2⟩
    unfold calculate_grade
    rw [if_neg (not_le.mpr (lt_trans h2 (by norm_num))), if_neg (not_le.mpr h2), if_pos h1]
  · rintro ⟨h1, h2⟩
    unfold calculate_grade
    rw [if_neg (not_le.mpr (lt_trans h2 (by norm_num))),
      if_neg (not_le.mpr (lt_trans h2 (by norm_num))), if_neg (not_le.mpr h2), if_pos h1]
  · intro h
    unfold calculate_grade
    rw [if_neg (not_le.mpr (lt_trans h (by norm_num))),
      if_neg (not_le.mpr (lt_trans h (by norm_num))),
      if_neg (not_le.mpr (lt_trans h (by norm_num))), if_neg (not_le.mpr h)]

/-- Witness for C7: the B tier at 85. -/
theorem C7_grade_boundaries_witness :
    (80 : ℚ) ≤ 85 ∧ (85 : ℚ) < 90 ∧ calculate_grade 85 = "B" :=
  ⟨by norm_num, by norm_num, (C7_grade_boundaries.1 85).2.1 ⟨by norm_num, by norm_num⟩⟩

/-- C5 counterexample: on the spec's example text the classifier does not
return the compliance-check intent with confidence at least 0.7 — it
returns the fallback chat intent instead. -/
theorem C5_example_text_counterexample :
    (detect_intent c5Text).intent ≠ Intent.AEM_COMPLIANCE
    ∧ ¬ ((0.7 : ℚ) ≤ (detect_intent c5Text).confidence) := by
  decide

/-- C5 (amended): on the example text the compliance-check intent scores
highest, 1613/3150 ≈ 0.512, but that is below the 0.6 detection threshold,
so `detect_intent` returns the fallback chat result (confidence 0.5, no
entities); `_extract_entities` applied to the text with the compliance
intent does extract path "/content/site" and categories
["accessibility"]. -/
theorem C5_example_text_fallback :
    detect_intent c5Text = fallbackDetection
    ∧ calculate_intent_score c5Text compliancePatterns = 1613/3150
    ∧ maxByScore (intentPatternList.map (fun p => (p.1, calculate_intent_score c5Text p.2)))
        = some (Intent.AEM_COMPLIANCE, 1613/3150)
    ∧ (1613/3150 : ℚ) < INTENT_CONFIDENCE_THRESHOLD
    ∧ extract_entities c5Text Intent.AEM_COMPLIANCE
        = { path := some "/content/site", categories := some ["accessibility"] } := by
  refine ⟨by decide, by decide, by decide, by decide, by decide⟩

/-- A non-empty provided category list selects the filtered taxonomy. -/
theorem rulesToCheck_some (cats : List String) (h : cats ≠ []) :
    rulesToCheck (some cats) = RULES.filter (fun p => cats.contains p.1) := by
  cases cats with
  | nil => exact absurd rfl h
  | cons a t => rfl

/-- The category names of the results of `check_category` over a rule list
are the keys of that list. -/
theorem categories_map_keys (env : Env) (html model : String)
    (l : List (String × CategoryDef)) :
    ((l.map (fun p => check_category env p.1 p.2 html model)).map (fun c => c.category))
      = l.map (fun p => p.1) := by
  induction l with
  | nil => rfl
  | cons a t ih =>
    simp only [List.map_cons, ih]
    rfl

/-- Mapping first components commutes with filtering on a key predicate. -/
theorem keys_of_filter (q : String → Bool) (l : List (String × CategoryDef)) :
    ((l.filter (fun p => q p.1)).map (fun p => p.1))
      = (l.map (fun p => p.1)).filter q := by
  induction l with
  | nil => rfl
  | cons a t ih =>
    cases hc : q a.1 <;> simp [List.filter_cons, hc, ih]

/-- C9 counterexample: an empty provided category list is falsy in the
source (`if categories:`), so the evaluation checks ALL taxonomy
categories rather than zero: with every check passing it yields 6
categories and overall score 100, not 0. -/
theorem C9_empty_list_counterexample :
    (check_page_compliance allPassEnv "/content/home" (some []) "gemma:2b").categories.length = 6
    ∧ (check_page_compliance allPassEnv "/content/home" (some []) "gemma:2b").overall_score
        = 100 := by
  decide

/-- C9 (amended): a non-empty provided list filters the taxonomy to the
intersection of its keys with the taxonomy keys, silently ignoring unknown
keys; if the filtered rule set is empty the evaluation still runs with zero
categories and produces overall score 0; an empty provided list, like
`None`, is falsy and selects the whole taxonomy. -/
theorem C9_category_filtering :
    (∀ cats : List String, cats ≠ [] →
        rulesToCheck (some cats) = RULES.filter (fun p => cats.contains p.1))
    ∧ (∀ (env : Env) (page_path model : String) (cats : List String),
        cats ≠ [] →
        (env.get_page_content page_path).success = true →
        ((check_page_compliance env page_path (some cats) model).categories.map
            (fun c => c.category))
          = (RULES.map (fun p => p.1)).filter (fun k => cats.contains k))
    ∧ (∀ (env : Env) (page_path model : String) (cats : List String),
        cats ≠ [] →
        RULES.filter (fun p => cats.contains p.1) = [] →
        (env.get_page_content page_path).success = true →
        (check_page_compliance env page_path (some cats) model).categories = []
          ∧ (check_page_compliance env page_path (some cats) model).overall_score = 0)
    ∧ rulesToCheck (some []) = RULES
    ∧ rulesToCheck none = RULES := by
  refine ⟨rulesToCheck_some, ?_, ?_, rfl, rfl⟩
  · intro env page_path model cats hne hs
    unfold check_page_compliance
    simp only [hs, Bool.not_true, Bool.false_eq_true, if_false]
    rw [rulesToCheck_some cats hne, categories_map_keys,
      keys_of_filter (fun k => cats.contains k) RULES]
  · intro env page_path model cats hne hfil hs
    unfold check_page_compliance
    simp only [hs, Bool.not_true, Bool.false_eq_true, if_false]
    rw [rulesToCheck_some cats hne, hfil]
    simp only [List.map_nil]
    exact ⟨by trivial, by decide⟩

/-- Witness for C9: a list with only an unknown key yields zero categories
and overall score 0. -/
theorem C9_category_filtering_witness :
    (check_page_compliance allPassEnv "/content/x" (some ["bogus"]) "gemma:2b").categories = []
    ∧ (check_page_compliance allPassEnv "/content/x" (some ["bogus"])
          "gemma:2b").overall_score = 0 :=
  C9_category_filtering.2.2.1 allPassEnv "/content/x" "gemma:2b" ["bogus"]
    (by decide) (by decide) rfl

/-- C2: `check_multiple_pages` returns one result per page identifier in
submission order; a task that returns feeds its result through unchanged, a
task that raises is converted at the orchestrator boundary into the error
result tagged with that page's path, and one page's failure never removes
another page's result; the concrete 5-page batch with exactly one raising
task yields 5 results of which exactly one is the degenerate error
result. -/
theorem C2_multi_page_isolation :
    (∀ (evalPage : String → Except String ComplianceResult) (paths : List String),
      (check_multiple_pages evalPage paths).length = paths.length)
    ∧ (∀ (evalPage : String → Except String ComplianceResult) (paths : List String)
        (path : String) (r : ComplianceResult),
        path ∈ paths → evalPage path = .ok r →
        r ∈ check_multiple_pages evalPage paths)
    ∧ (∀ (evalPage : String → Except String ComplianceResult) (paths : List String)
        (path e : String),
        path ∈ paths → evalPage path = .error e →
        create_error_result path ("Check failed: " ++ e) ∈ check_multiple_pages evalPage paths)
    ∧ (check_multiple_pages eval5 fivePaths).length = 5
    ∧ (check_multiple_pages eval5 fivePaths).countP
        (fun r => decide (r.overall_score = 0 ∧ r.grade = "F")) = 1 := by
  refine ⟨?_, ?_, ?_, by decide, by decide⟩
  · intro evalPage paths
    simp [check_multiple_pages]
  · intro evalPage paths path r hmem hok
    have hcr : collect_result evalPage path = r := by
      simp [collect_result, hok]
    have hm := List.mem_map_of_mem (collect_result evalPage) hmem
    rw [hcr] at hm
    exact hm
  · intro evalPage paths path e hmem herr
    have hcr : collect_result evalPage path
        = create_error_result path ("Check failed: " ++ e) := by
      simp [collect_result, herr]
    have hm := List.mem_map_of_mem (collect_result evalPage) hmem
    rw [hcr] at hm
    exact hm

/-- Witness for C2: in the 5-page batch, page 1's real result is present
and page 3's failure became the tagged error result. -/
theorem C2_multi_page_isolation_witness :
    check_page_compliance allPassEnv "/content/p1" none "gemma:2b"
        ∈ check_multiple_pages eval5 fivePaths
    ∧ create_error_result "/content/p3" ("Check failed: " ++ "Page-Content Provider timeout")
        ∈ check_multiple_pages eval5 fivePaths :=
  ⟨C2_multi_page_isolation.2.1 eval5 fivePaths "/content/p1" _ (by decide) rfl,
   C2_multi_page_isolation.2.2.1 eval5 fivePaths "/content/p3"
     "Page-Content Provider timeout" (by decide) rfl⟩

/-- The per-check accumulation loop of `calculate_category_score` adds the
total weight of the passed checks. -/
theorem foldl_weight_if (results : String → Bool) (checks : List CheckDef) (c : ℚ) :
    checks.foldl (fun acc check => if results check.id then acc + check.weight else acc) c
      = c + passedCheckWeight checks results := by
  induction checks generalizing c with
  | nil => simp [passedCheckWeight]
  | cons a t ih =>
    cases h : results a.id <;>
      simp [List.foldl_cons, h, ih, passedCheckWeight, List.filter_cons, add_assoc]

/-- C6: a category's score is 100 times the weight of the passed checks over
the total check weight; all passes give exactly 100, all failures exactly 0,
and a zero total weight (in particular zero checks) gives 0. -/
theorem C6_category_score_weighted_ratio :
    (∀ (results : String → Bool) (cat : String) (data : CategoryDef),
        lookupRule cat = some data →
        0 < totalCheckWeight data.checks →
        calculate_category_score results cat
          = 100 * passedCheckWeight data.checks results / totalCheckWeight data.checks)
    ∧ (∀ (cat : String) (data : CategoryDef),
        lookupRule cat = some data →
        0 < totalCheckWeight data.checks →
        calculate_category_score (fun _ => true) cat = 100)
    ∧ (∀ cat : String, calculate_category_score (fun _ => false) cat = 0)
    ∧ (∀ (results : String → Bool) (cat : String) (data : CategoryDef),
        lookupRule cat = some data →
        totalCheckWeight data.checks = 0 →
        calculate_category_score results cat = 0) := by
  have main : ∀ (results : String → Bool) (cat : String) (data : CategoryDef),
      lookupRule cat = some data →
      0 < totalCheckWeight data.checks →
      calculate_category_score results cat
        = 100 * passedCheckWeight data.checks results / totalCheckWeight data.checks := by
    intro results cat data hlook hpos
    unfold calculate_category_score
    simp only [hlook, foldl_weight_if, zero_add, if_pos hpos]
    ring
  refine ⟨main, ?_, ?_, ?_⟩
  · intro cat data hlook hpos
    rw [main (fun _ => true) cat data hlook hpos]
    have hall : passedCheckWeight data.checks (fun _ => true) = totalCheckWeight data.checks := by
      simp [passedCheckWeight, totalCheckWeight]
    rw [hall, mul_div_assoc, div_self (ne_of_gt hpos), mul_one]
  · intro cat
    cases hl : lookupRule cat with
    | none =>
      simp only [calculate_category_score, hl]
    | some data =>
      by_cases hw : 0 < totalCheckWeight data.checks
      · have hnone : passedCheckWeight data.checks (fun _ => false) = 0 := by
          simp [passedCheckWeight]
        rw [main (fun _ => false) cat data hl hw, hnone, mul_zero, zero_div]
      · simp only [calculate_category_score, hl]
        rw [if_neg hw]
  · intro results cat data hlook hzero
    unfold calculate_category_score
    simp only [hlook, hzero]
    simp

/-- Witness for C6: every accessibility check passing scores exactly 100. -/
theorem C6_category_score_weighted_ratio_witness :
    calculate_category_score (fun _ => true) "accessibility" = 100 :=
  C6_category_score_weighted_ratio.2.1 "accessibility" _ rfl (by decide)

/-- One grade increment shifts exactly the incremented key's count. -/
theorem lookupNat_incrGrade (d : List (String × ℕ)) (h g : String) :
    lookupNat (incrGrade d h) g = lookupNat d g + (if h = g then 1 else 0) := by
  induction d with
  | nil => by_cases hg : h = g <;> simp [incrGrade, lookupNat, hg]
  | cons a t ih =>
    obtain ⟨k, v⟩ := a
    by_cases hk : k = h
    · subst hk
      by_cases hg : k = g <;> simp [incrGrade, lookupNat, hg]
    · by_cases hg : k = g
      · subst hg
        have hg' : h ≠ k := fun he => hk he.symm
        simp [incrGrade, lookupNat, hk, hg']
      · simp [incrGrade, lookupNat, hk, hg, ih]

/-- The grade-distribution fold counts each grade's frequency. -/
theorem lookupNat_foldl_incr (l : List ComplianceResult) (acc : List (String × ℕ))
    (g : String) :
    lookupNat (l.foldl (fun d r => incrGrade d r.grade) acc) g
      = lookupNat acc g + l.countP (fun r => decide (r.grade = g)) := by
  induction l generalizing acc with
  | nil => simp
  | cons r t ih =>
    simp only [List.foldl_cons, ih, lookupNat_incrGrade, List.countP_cons]
    by_cases hg : r.grade = g <;> simp [hg] <;> omega

/-- C8: the summary statistics report the page count, the mean overall
score rounded to two decimals, the grade frequency distribution, the issue
total, and pass/fail counts against the fixed threshold 70; the empty list
short-circuits to the four-key zero summary without dividing. -/
theorem C8_summary_statistics :
    ∀ results : List ComplianceResult,
      (results = [] → get_summary_statistics results
          = [("total_pages", .num 0), ("average_score", .num 0),
             ("grade_distribution", .dist []), ("total_issues", .num 0)])
      ∧ svLookup (get_summary_statistics results) "total_pages"
          = some (.num (results.length : ℚ))
      ∧ (results ≠ [] →
          svLookup (get_summary_statistics results) "average_score"
            = some (.num (round2
                ((results.map (fun r => r.overall_score)).sum / (results.length : ℚ)))))
      ∧ (∀ g, gradeCount (get_summary_statistics results) g
          = results.countP (fun r => decide (r.grade = g)))
      ∧ (results ≠ [] →
          svLookup (get_summary_statistics results) "pages_passed"
            = some (.num ((results.countP (fun r => decide (70 ≤ r.overall_score)) : ℕ) : ℚ))
          ∧ svLookup (get_summary_statistics results) "pages_failed"
            = some (.num ((results.countP (fun r => decide (r.overall_score < 70)) : ℕ) : ℚ)))
      ∧ svLookup (get_summary_statistics results) "total_issues"
          = some (.num ((results.map (fun r => r.total_issues)).sum : ℚ)) := by
  intro results
  cases results with
  | nil =>
    refine ⟨fun _ => rfl, rfl, fun h => absurd rfl h, ?_, fun h => absurd rfl h, rfl⟩
    intro g
    rfl
  | cons r rs =>
    refine ⟨fun h => absurd h (List.cons_ne_nil r rs), rfl, ?_, ?_,
      fun _ => ⟨rfl, rfl⟩, rfl⟩
    · intro _
      simp only [get_summary_statistics, List.isEmpty_cons, Bool.false_eq_true, if_false,
        List.length_cons]
      rw [if_pos (Nat.succ_pos rs.length)]
      rfl
    · intro g
      have hdist : gradeCount (get_summary_statistics (r :: rs)) g
          = lookupNat ((r :: rs).foldl (fun d x => incrGrade d x.grade) []) g := rfl
      rw [hdist, lookupNat_foldl_incr]
      simp [lookupNat]

/-- Witness for C8: a singleton error-result batch averages 0 and counts one
failed page. -/
theorem C8_summary_statistics_witness :
    svLookup (get_summary_statistics [create_error_result "/content/a" "boom"]) "average_score"
      = some (.num 0)
    ∧ svLookup (get_summary_statistics [create_error_result "/content/a" "boom"]) "pages_failed"
      = some (.num 1) := by
  have h := C8_summary_statistics [create_error_result "/content/a" "boom"]
  refine ⟨?_, ?_⟩
  · rw [h.2.2.1 (by decide)]
    decide
  · rw [(h.2.2.2.2.1 (by decide)).2]
    decide

/-- The severity-counting step preserves total = high + medium + low. -/
theorem tallyCheck_inv (acc : IssueCounts) (c : CheckResult)
    (h : acc.total = acc.high + acc.medium + acc.low) :
    (tallyCheck acc c).total
      = (tallyCheck acc c).high + (tallyCheck acc c).medium + (tallyCheck acc c).low := by
  unfold tallyCheck
  split_ifs <;> (try simp) <;> omega

/-- The inner check-counting loop preserves the invariant. -/
theorem foldl_tally_inv (checks : List CheckResult) (acc : IssueCounts)
    (h : acc.total = acc.high + acc.medium + acc.low) :
    (checks.foldl tallyCheck acc).total
      = (checks.foldl tallyCheck acc).high + (checks.foldl tallyCheck acc).medium
        + (checks.foldl tallyCheck acc).low := by
  induction checks generalizing acc with
  | nil => simpa using h
  | cons c t ih =>
    simp only [List.foldl_cons]
    exact ih _ (tallyCheck_inv acc c h)

/-- The outer category loop preserves the invariant. -/
theorem foldl_cats_inv (cats : List CategoryResult) (acc : IssueCounts)
    (h : acc.total = acc.high + acc.medium + acc.low) :
    ((cats.foldl (fun a cat => cat.checks.foldl tallyCheck a) acc)).total
      = ((cats.foldl (fun a cat => cat.checks.foldl tallyCheck a) acc)).high
        + ((cats.foldl (fun a cat => cat.checks.foldl tallyCheck a) acc)).medium
        + ((cats.foldl (fun a cat => cat.checks.foldl tallyCheck a) acc)).low := by
  induction cats generalizing acc with
  | nil => simpa using h
  | cons c t ih =>
    simp only [List.foldl_cons]
    exact ih _ (foldl_tally_inv c.checks acc h)

/-- The issue counter satisfies total = high + medium + low on any input. -/
theorem countIssues_inv (cats : List CategoryResult) :
    (countIssues cats).total
      = (countIssues cats).high + (countIssues cats).medium + (countIssues cats).low :=
  foldl_cats_inv cats _ rfl

/-- Every single-page evaluation satisfies the issue-count invariant. -/
theorem check_page_compliance_issue_inv (env : Env) (p : String)
    (cats : Option (List String)) (model : String) :
    (check_page_compliance env p cats model).total_issues
      = (check_page_compliance env p cats model).high_priority_issues
        + (check_page_compliance env p cats model).medium_priority_issues
        + (check_page_compliance env p cats model).low_priority_issues := by
  unfold check_page_compliance
  cases hs : (env.get_page_content p).success with
  | false =>
    simp only [hs, Bool.not_false, if_true]
    rfl
  | true =>
    simp only [hs, Bool.not_true, Bool.false_eq_true, if_false]
    exact countIssues_inv _

/-- C10: every result satisfies
total_issues = high + medium + low: each failed check lands in exactly one
severity bucket (anything other than "high"/"medium" counts as low), the
error result carries 1 = 1 + 0 + 0, and batch results — whether produced by
the page evaluator or by exception conversion — inherit the invariant. -/
theorem C10_issue_counts_invariant :
    (∀ cat_results : List CategoryResult,
        (countIssues cat_results).total
          = (countIssues cat_results).high + (countIssues cat_results).medium
            + (countIssues cat_results).low)
    ∧ (∀ (env : Env) (p : String) (cats : Option (List String)) (model : String),
        (check_page_compliance env p cats model).total_issues
          = (check_page_compliance env p cats model).high_priority_issues
            + (check_page_compliance env p cats model).medium_priority_issues
            + (check_page_compliance env p cats model).low_priority_issues)
    ∧ (∀ p msg : String,
        (create_error_result p msg).total_issues = 1
        ∧ (create_error_result p msg).high_priority_issues = 1
        ∧ (create_error_result p msg).medium_priority_issues = 0
        ∧ (create_error_result p msg).low_priority_issues = 0)
    ∧ (∀ (evalPage : String → Except String ComplianceResult) (env : Env)
        (cats : Option (List String)) (model : String) (paths : List String)
        (r : ComplianceResult),
        (∀ q : String, (∃ e, evalPage q = .error e)
            ∨ evalPage q = .ok (check_page_compliance env q cats model)) →
        r ∈ check_multiple_pages evalPage paths →
        r.total_issues
          = r.high_priority_issues + r.medium_priority_issues + r.low_priority_issues) := by
  refine ⟨countIssues_inv, check_page_compliance_issue_inv,
    fun p msg => ⟨rfl, rfl, rfl, rfl⟩, ?_⟩
  intro evalPage env cats model paths r htask hmem
  obtain ⟨q, hq, hcol⟩ := List.mem_map.mp hmem
  rcases htask q with ⟨e, he⟩ | hok
  · rw [← hcol]
    simp only [collect_result, he]
    rfl
  · rw [← hcol]
    simp only [collect_result, hok]
    exact check_page_compliance_issue_inv env q cats model

/-- Witness for C10: a member of a concrete batch with one raising task
satisfies the invariant. -/
theorem C10_issue_counts_invariant_witness :
    (check_page_compliance allFailEnv "/content/p1" none "gemma:2b").total_issues
      = (check_page_compliance allFailEnv "/content/p1" none "gemma:2b").high_priority_issues
        + (check_page_compliance allFailEnv "/content/p1" none "gemma:2b").medium_priority_issues
        + (check_page_compliance allFailEnv "/content/p1" none "gemma:2b").low_priority_issues := by
  refine C10_issue_counts_invariant.2.2.2 evalFail5 allFailEnv none "gemma:2b" fivePaths _ ?_ ?_
  · intro q
    by_cases hq : q = "/content/p3"
    · exact Or.inl ⟨"boom", by simp [evalFail5, hq]⟩
    · exact Or.inr (by simp [evalFail5, hq])
  · decide

end AemBot
